import Mathlib

/-!
Shallow embedding of `src/server/models.py` (Book-Club application schema).

The Python source declares seven SQLAlchemy entities (User, BookClub, Book,
Genre, Membership, CurrentReading, Review) with field validators that run on
attribute assignment, a bcrypt-backed password setter, and declarative
serializer exclusion rules.  We model each entity as a Lean structure, each
`@validates` hook / property setter as a function returning `Except PyError`,
timestamps as explicit `Nat` clock values passed to the operations that stamp
them, and Python numeric rating values as rationals (so that a non-integer
such as 3.5 is representable exactly).
-/

/-- The Python exception outcomes relevant to the models: a failed `assert`
(`AssertionError`), a `TypeError` (e.g. from `'@' in None`), the explicit
`ValueError` in the password setter, and the database `IntegrityError` raised
at flush time for `nullable=False` / primary-key / foreign-key violations. -/
inductive PyError where
  | assertionError : PyError
  | typeError : String → PyError
  | valueError : String → PyError
  | integrityError : PyError
deriving Repr, DecidableEq

/-- Modelled from the spec: the digest produced by flask_bcrypt (an external
library, not part of `src/`).  Spec section 4.3 requires "one-way, salted,
verifiable": we model the digest as a record of the salt together with an
injective scrambling of the plaintext characters that is never equal to the
plaintext itself, so verification can recompute the digest from the stored
salt. -/
structure HashDigest where
  salt : Nat
  payload : List Char
deriving Repr, DecidableEq

/-- Modelled from the spec: `bcrypt.generate_password_hash(password)` with the
fresh salt made explicit as an argument. -/
def generate_password_hash (salt : Nat) (password : String) : HashDigest :=
  ⟨salt, 'h' :: password.data⟩

/-- Modelled from the spec: `bcrypt.check_password_hash(stored, candidate)`
recomputes the digest of the candidate under the salt recorded in the stored
digest and compares. -/
def check_password_hash (stored : HashDigest) (candidate : String) : Bool :=
  generate_password_hash stored.salt candidate == stored

/-- The mutable column state of a `User` row (`username`, `email`,
`_password_hash`); `String` columns are `Option String` because Python
attributes may hold `None` before the `nullable=False` check fires at flush. -/
structure UserState where
  username : Option String
  email : Option String
  _password_hash : Option HashDigest
deriving Repr, DecidableEq

/-- `User.password_hash` property getter: returns `self._password_hash`. -/
def UserState.password_hash (u : UserState) : Option HashDigest :=
  u._password_hash

/-- `User.password_hash` property setter: raises
`ValueError("Password must be at least 6 characters long")` when
`len(password) < 6`, otherwise stores the bcrypt digest of the password. -/
def UserState.set_password_hash (salt : Nat) (u : UserState) (password : String) :
    Except PyError UserState :=
  if password.length < 6 then
    .error (.valueError "Password must be at least 6 characters long")
  else
    .ok { u with _password_hash := some (generate_password_hash salt password) }

/-- The object state after an attempted password assignment: a Python
attribute assignment that raises leaves the object unchanged. -/
def UserState.set_password_state (salt : Nat) (u : UserState) (password : String) :
    UserState :=
  match u.set_password_hash salt password with
  | .ok u' => u'
  | .error _ => u

/-- `User.authenticate(password)`: `bcrypt.check_password_hash` of the stored
digest against the candidate (only meaningful once a hash is stored; the
`none` branch stands for the pre-insert state). -/
def UserState.authenticate (u : UserState) (password : String) : Bool :=
  match u._password_hash with
  | none => false
  | some h => check_password_hash h password

/-- `User.validate_email`: Python `assert '@' in address; return address`.
When `address` is `None`, evaluating `'@' in None` raises a `TypeError`
before the assertion can fail; for a string, the assertion fails exactly
when the string does not contain the character `@`. -/
def User.validate_email (address : Option String) : Except PyError (Option String) :=
  match address with
  | none => .error (.typeError "argument of type NoneType is not iterable")
  | some s => if s.contains '@' then .ok (some s) else .error .assertionError

/-- Assignment to `User.email`: SQLAlchemy invokes the `@validates('email')`
hook on every assignment; on success the returned value is stored. -/
def UserState.set_email (u : UserState) (address : Option String) :
    Except PyError UserState :=
  match User.validate_email address with
  | .ok v => .ok { u with email := v }
  | .error e => .error e

/-- Object state after an attempted email assignment (unchanged on error). -/
def UserState.set_email_state (u : UserState) (address : Option String) : UserState :=
  match u.set_email address with
  | .ok u' => u'
  | .error _ => u

/-- The shared shape of the non-empty validators:
`assert value is not None and len(value) > 0` (Python `and` short-circuits,
so `None` fails the assertion cleanly rather than raising a `TypeError`). -/
def pyNotNoneAndNonempty (value : Option String) : Bool :=
  match value with
  | none => false
  | some s => decide (0 < s.length)

/-- `User.validate_username`: `assert username is not None and len(username) > 0`. -/
def User.validate_username (username : Option String) : Except PyError (Option String) :=
  if pyNotNoneAndNonempty username then .ok username else .error .assertionError

/-- Assignment to `User.username` (validator runs on every assignment). -/
def UserState.set_username (u : UserState) (username : Option String) :
    Except PyError UserState :=
  match User.validate_username username with
  | .ok v => .ok { u with username := v }
  | .error e => .error e

/-- The mutable column state of a `BookClub` row. -/
structure BookClubState where
  name : Option String
  description : Option String
  created_by : Nat
  created_at : Nat
deriving Repr, DecidableEq

/-- `BookClub.validate_name`: `assert name is not None and len(name) > 0`. -/
def BookClub.validate_name (name : Option String) : Except PyError (Option String) :=
  if pyNotNoneAndNonempty name then .ok name else .error .assertionError

/-- Assignment to `BookClub.name` (validator runs on every assignment). -/
def BookClubState.set_name (c : BookClubState) (name : Option String) :
    Except PyError BookClubState :=
  match BookClub.validate_name name with
  | .ok v => .ok { c with name := v }
  | .error e => .error e

/-- Creation of a `BookClub` record at clock time `now`: the name validator
runs on the constructor keyword assignment, and `created_at` defaults to
`datetime.datetime.now(datetime.timezone.utc)` at insert. -/
def BookClub.mk_record (now : Nat) (name : Option String) (description : Option String)
    (created_by : Nat) : Except PyError BookClubState :=
  match BookClub.validate_name name with
  | .ok v => .ok { name := v, description := description, created_by := created_by,
                   created_at := now }
  | .error e => .error e

/-- The mutable column state of a `Book` row. -/
structure BookState where
  title : Option String
  author : Option String
  image_url : Option String
  genre_id : Nat
deriving Repr, DecidableEq

/-- `Book.validate_title`: `assert title is not None and len(title) > 0`. -/
def Book.validate_title (title : Option String) : Except PyError (Option String) :=
  if pyNotNoneAndNonempty title then .ok title else .error .assertionError

/-- `Book.validate_author`: `assert author is not None and len(author) > 0`. -/
def Book.validate_author (author : Option String) : Except PyError (Option String) :=
  if pyNotNoneAndNonempty author then .ok author else .error .assertionError

/-- Assignment to `Book.title` (validator runs on every assignment). -/
def BookState.set_title (b : BookState) (title : Option String) :
    Except PyError BookState :=
  match Book.validate_title title with
  | .ok v => .ok { b with title := v }
  | .error e => .error e

/-- Assignment to `Book.author` (validator runs on every assignment). -/
def BookState.set_author (b : BookState) (author : Option String) :
    Except PyError BookState :=
  match Book.validate_author author with
  | .ok v => .ok { b with author := v }
  | .error e => .error e

/-- The mutable column state of a `Genre` row. -/
structure GenreState where
  name : Option String
deriving Repr, DecidableEq

/-- `Genre.validate_name`: `assert name is not None and len(name) > 0`. -/
def Genre.validate_name (name : Option String) : Except PyError (Option String) :=
  if pyNotNoneAndNonempty name then .ok name else .error .assertionError

/-- Assignment to `Genre.name` (validator runs on every assignment). -/
def GenreState.set_name (g : GenreState) (name : Option String) :
    Except PyError GenreState :=
  match Genre.validate_name name with
  | .ok v => .ok { g with name := v }
  | .error e => .error e

/-- The column state of a `Membership` row (join of User and BookClub). -/
structure MembershipState where
  id : Nat
  user_id : Nat
  book_club_id : Nat
deriving Repr, DecidableEq

/-- The column state of a `CurrentReading` row: `book_club_id` and `book_id`
are `nullable=False` foreign keys, `started_at` defaults to the current UTC
time at insert.  Note the schema places no `unique=True` on `book_club_id`. -/
structure CurrentReadingState where
  id : Nat
  book_club_id : Nat
  book_id : Nat
  started_at : Nat
deriving Repr, DecidableEq

/-- The slice of the backing store relevant to `CurrentReading`: the ids of
existing book clubs and books, and the `current_readings` table. -/
structure CRStore where
  club_ids : List Nat
  book_ids : List Nat
  current_readings : List CurrentReadingState
deriving Repr, DecidableEq

/-- Inserting a `CurrentReading` row at clock time `now`: the store enforces
primary-key uniqueness on `id` and the two `ForeignKey` constraints, stamps
`started_at := now` (the column default), and enforces nothing else — the
schema declares no uniqueness constraint on `book_club_id`. -/
def insertCurrentReading (now : Nat) (s : CRStore) (id book_club_id book_id : Nat) :
    Except PyError CRStore :=
  if s.current_readings.any (fun r => r.id == id) then .error .integrityError
  else if ¬ s.club_ids.contains book_club_id then .error .integrityError
  else if ¬ s.book_ids.contains book_id then .error .integrityError
  else .ok { s with current_readings :=
               s.current_readings ++ [⟨id, book_club_id, book_id, now⟩] }

/-- `BookClub.current_reading` with `uselist=False`: the relationship is read
as a scalar, yielding at most one row for the club. -/
def BookClub.current_reading (s : CRStore) (club : Nat) : Option CurrentReadingState :=
  s.current_readings.find? (fun r => r.book_club_id == club)

/-- The per-club singleton property claimed for `CurrentReading`: no two
distinct rows of the table share a `book_club_id`. -/
def atMostOneCurrentReadingPerClub (s : CRStore) : Prop :=
  ∀ r1 ∈ s.current_readings, ∀ r2 ∈ s.current_readings,
    r1.book_club_id = r2.book_club_id → r1 = r2

/-- The mutable column state of a `Review` row.  `rating` is a rational so
that any Python numeric value (including a float such as 3.5) is
representable; `content` is `Option String` because no validator guards it
and only the flush-time `nullable=False` check rejects `None`. -/
structure ReviewState where
  user_id : Nat
  book_id : Nat
  book_club_id : Nat
  content : Option String
  rating : ℚ
  created_at : Nat
  updated_at : Nat
deriving Repr, DecidableEq

/-- `Review.validate_rating`: Python `assert 1 <= rating <= 5; return rating`.
The assertion checks only the numeric range — there is no integer check. -/
def Review.validate_rating (rating : ℚ) : Except PyError ℚ :=
  if 1 ≤ rating ∧ rating ≤ 5 then .ok rating else .error .assertionError

/-- Assignment to `Review.rating` at clock time `now`: the
`@validates('rating')` hook runs; a successful mutation is re-stamped by the
`onupdate` default of `updated_at` at the update flush. -/
def ReviewState.set_rating (now : Nat) (r : ReviewState) (rating : ℚ) :
    Except PyError ReviewState :=
  match Review.validate_rating rating with
  | .ok v => .ok { r with rating := v, updated_at := now }
  | .error e => .error e

/-- Object state after an attempted rating assignment (unchanged on error). -/
def ReviewState.set_rating_state (now : Nat) (r : ReviewState) (rating : ℚ) :
    ReviewState :=
  match r.set_rating now rating with
  | .ok r' => r'
  | .error _ => r

/-- Assignment to `Review.content` at clock time `now`: there is no validator
on `content`, so any value (including the empty string, or `None` until the
flush-time nullability check) is stored, and `updated_at` is re-stamped at
the update flush. -/
def ReviewState.set_content (now : Nat) (r : ReviewState) (content : Option String) :
    ReviewState :=
  { r with content := content, updated_at := now }

/-- Creation of a `Review` record at clock time `now`: the rating validator
runs on the constructor keyword assignment, the flush rejects a `None`
content (`nullable=False`), and both `created_at` and `updated_at` default to
the current UTC time. -/
def Review.mk_record (now : Nat) (user_id book_id book_club_id : Nat)
    (content : Option String) (rating : ℚ) : Except PyError ReviewState :=
  match Review.validate_rating rating with
  | .error e => .error e
  | .ok v =>
    if content = none then .error .integrityError
    else .ok { user_id := user_id, book_id := book_id, book_club_id := book_club_id,
               content := content, rating := v, created_at := now, updated_at := now }

/-- `User.serialize_rules` verbatim from the source. -/
def User.serialize_rules : List String :=
  ["-book_clubs_created.creator", "-memberships.user", "-reviews.user"]

/-- `BookClub.serialize_rules` verbatim from the source. -/
def BookClub.serialize_rules : List String :=
  ["-creator.book_clubs_created", "-members.book_club", "-reviews.book_club"]

/-- `Book.serialize_rules` verbatim from the source. -/
def Book.serialize_rules : List String :=
  ["-genre.books", "-current_reading.book", "-reviews.book"]

/-- `Genre.serialize_rules` verbatim from the source. -/
def Genre.serialize_rules : List String :=
  ["-books.genre"]

/-- `Membership.serialize_rules` verbatim from the source. -/
def Membership.serialize_rules : List String :=
  ["-user.memberships", "-book_club.members"]

/-- `CurrentReading.serialize_rules` verbatim from the source. -/
def CurrentReading.serialize_rules : List String :=
  ["-book_club.current_reading", "-book.current_reading"]

/-- `Review.serialize_rules` verbatim from the source. -/
def Review.serialize_rules : List String :=
  ["-user.reviews", "-book.reviews", "-book_club.reviews"]

/-- Modelled from the spec: the exclusion semantics of sqlalchemy_serializer
(an external library, not part of `src/`).  Spec section 4.4: serialization
recursively expands relationships but omits every path excluded by a
`-`-prefixed rule, where a rule prunes the named path and its whole subtree. -/
def pathExcluded (rules : List String) (path : String) : Bool :=
  rules.any (fun rule =>
    let q := rule.data.drop 1
    path.data == q || List.isPrefixOf (q ++ ['.']) path.data)

/-- A sample user object used by the concrete witnesses. -/
def sampleUser : UserState :=
  { username := some "ada", email := some "ada@example.com", _password_hash := none }

/-- A sample review object used by the concrete witnesses. -/
def sampleReview : ReviewState :=
  { user_id := 1, book_id := 1, book_club_id := 1, content := some "Great",
    rating := 5, created_at := 0, updated_at := 0 }

/-- A sample store with one club and two books and an empty
`current_readings` table. -/
def sampleStore : CRStore :=
  { club_ids := [1], book_ids := [1, 2], current_readings := [] }

/-- Claim C1 (counterexample): the claim says r = 3.5 is rejected at write
time with an assertion failure, but `assert 1 <= rating <= 5` holds for 3.5
in Python, so assigning the non-integer rating 3.5 succeeds and the value
enters the field state. -/
theorem rating_three_point_five_accepted :
    Review.validate_rating (3.5 : ℚ) = .ok (3.5 : ℚ) ∧
    ReviewState.set_rating 7 sampleReview (3.5 : ℚ) =
      .ok { sampleReview with rating := (3.5 : ℚ), updated_at := 7 } := by
  have hv : Review.validate_rating (3.5 : ℚ) = .ok (3.5 : ℚ) := by
    unfold Review.validate_rating
    rw [if_pos (by norm_num)]
  refine ⟨hv, ?_⟩
  unfold ReviewState.set_rating
  rw [hv]

/-- Claim C1 (amended): assignment to `Review.rating` succeeds iff the value
satisfies 1 ≤ r ≤ 5 numerically (no integer check is performed); out-of-range
values such as r = 0 and r = 6 are rejected with an assertion failure and the
object state is left unchanged — never silently clamped. -/
theorem set_rating_numeric_range_only (now : Nat) (r : ReviewState) (rating : ℚ) :
    ((∃ r', r.set_rating now rating = .ok r') ↔ (1 ≤ rating ∧ rating ≤ 5)) ∧
    (r.set_rating now rating = .error .assertionError ↔
      ¬ (1 ≤ rating ∧ rating ≤ 5)) ∧
    r.set_rating_state now rating =
      (if 1 ≤ rating ∧ rating ≤ 5 then { r with rating := rating, updated_at := now }
       else r) := by
  unfold ReviewState.set_rating_state ReviewState.set_rating Review.validate_rating
  by_cases h : 1 ≤ rating ∧ rating ≤ 5 <;> simp [h]

/-- Claim C4 (counterexample): `Review.content` has no validator — only
`nullable=False` — so creating a review with the empty string as content
succeeds, and assigning the empty string to an existing review succeeds: the
empty content value does enter the addressable field state. -/
theorem empty_content_accepted :
    Review.mk_record 0 1 1 1 (some "") 5 =
      .ok { user_id := 1, book_id := 1, book_club_id := 1, content := some "",
            rating := 5, created_at := 0, updated_at := 0 } ∧
    ReviewState.set_content 3 sampleReview (some "") =
      { sampleReview with content := some "", updated_at := 3 } := by
  constructor
  · unfold Review.mk_record Review.validate_rating
    rw [if_pos (by norm_num : (1 : ℚ) ≤ 5 ∧ (5 : ℚ) ≤ 5)]
    rfl
  · rfl

/-- Claim C4 (amended): creating a `Review` succeeds iff the rating passes
the range check and the content is non-null; content is never checked for
being non-empty, so the empty string is accepted. -/
theorem mk_record_requires_range_and_non_null_only (now uid bid cid : Nat)
    (content : Option String) (rating : ℚ) :
    (∃ r', Review.mk_record now uid bid cid content rating = .ok r') ↔
      ((1 ≤ rating ∧ rating ≤ 5) ∧ content ≠ none) := by
  unfold Review.mk_record Review.validate_rating
  by_cases h : 1 ≤ rating ∧ rating ≤ 5 <;> by_cases hc : content = none <;>
    simp [h, hc]

/-- Claim C5 (counterexample): starting from a store with one club and two
books, two `CurrentReading` rows for the same club are inserted one after the
other; both inserts succeed (the schema has no uniqueness constraint on
`book_club_id`) and the resulting state violates the per-club singleton
property. -/
theorem two_current_readings_same_club_reachable :
    insertCurrentReading 0 sampleStore 1 1 1 =
      .ok { club_ids := [1], book_ids := [1, 2],
            current_readings := [⟨1, 1, 1, 0⟩] } ∧
    insertCurrentReading 1
        { club_ids := [1], book_ids := [1, 2], current_readings := [⟨1, 1, 1, 0⟩] }
        2 1 2 =
      .ok { club_ids := [1], book_ids := [1, 2],
            current_readings := [⟨1, 1, 1, 0⟩, ⟨2, 1, 2, 1⟩] } ∧
    ¬ atMostOneCurrentReadingPerClub
        { club_ids := [1], book_ids := [1, 2],
          current_readings := [⟨1, 1, 1, 0⟩, ⟨2, 1, 2, 1⟩] } := by
  refine ⟨rfl, rfl, ?_⟩
  unfold atMostOneCurrentReadingPerClub
  decide

/-- Claim C5 (amended): `BookClub.current_reading` is read as a scalar
(`uselist=False`), but inserting a `CurrentReading` succeeds iff the primary
key is fresh and both foreign keys resolve — the presence of an existing
`CurrentReading` row for the same club is not part of the condition, so the
per-club singleton property is not enforced by the schema. -/
theorem insert_current_reading_succeeds_iff (now : Nat) (s : CRStore)
    (id bcid bid : Nat) :
    (∃ s', insertCurrentReading now s id bcid bid = .ok s') ↔
      ((s.current_readings.any fun r => r.id == id) = false ∧
        bcid ∈ s.club_ids ∧ bid ∈ s.book_ids) := by
  unfold insertCurrentReading
  by_cases h1 : (s.current_readings.any fun r => r.id == id) = true <;>
    by_cases h2 : bcid ∈ s.club_ids <;>
    by_cases h3 : bid ∈ s.book_ids <;>
    simp [h1, h2, h3]

/-- The modelled bcrypt digest is injective in the plaintext for a fixed
salt: two passwords with the same digest are equal. -/
theorem generate_password_hash_inj (salt : Nat) (p q : String)
    (h : generate_password_hash salt p = generate_password_hash salt q) : p = q := by
  unfold generate_password_hash at h
  injection h with _ h2
  injection h2 with _ h3
  exact String.ext h3

/-- Claim C2: for every password of length at least 6, setting the password
succeeds, the stored value is the salted digest of the password (whose
character payload differs from the plaintext), and afterwards authentication
succeeds exactly on the original password: `authenticate p` is true and
`authenticate q` is false for every `q ≠ p`. -/
theorem set_password_then_authenticate (salt : Nat) (u : UserState) (p : String)
    (h : 6 ≤ p.length) :
    ∃ u', u.set_password_hash salt p = .ok u' ∧
      u'._password_hash = some (generate_password_hash salt p) ∧
      (generate_password_hash salt p).payload ≠ p.data ∧
      u'.authenticate p = true ∧
      ∀ q : String, q ≠ p → u'.authenticate q = false := by
  refine ⟨{ u with _password_hash := some (generate_password_hash salt p) },
    ?_, rfl, ?_, ?_, ?_⟩
  · unfold UserState.set_password_hash
    rw [if_neg (Nat.not_lt.mpr h)]
  · intro hc
    have hlen := congrArg List.length hc
    simp [generate_password_hash] at hlen
  · unfold UserState.authenticate check_password_hash
    simp [generate_password_hash]
  · intro q hq
    unfold UserState.authenticate check_password_hash
    simp only [beq_eq_false_iff_ne, ne_eq]
    intro hc
    exact hq (generate_password_hash_inj salt q p hc)

/-- Claim C2 witness at the concrete password "secret" on the sample user. -/
theorem set_password_then_authenticate_witness :
    ∃ u', sampleUser.set_password_hash 0 "secret" = .ok u' ∧
      u'._password_hash = some (generate_password_hash 0 "secret") ∧
      (generate_password_hash 0 "secret").payload ≠ "secret".data ∧
      u'.authenticate "secret" = true ∧
      ∀ q : String, q ≠ "secret" → u'.authenticate q = false :=
  set_password_then_authenticate 0 sampleUser "secret" (by decide)

/-- Claim C3: for every password shorter than 6 characters, the password
setter raises `ValueError("Password must be at least 6 characters long")`
and the user object — in particular any previously stored hash — is left
unchanged. -/
theorem short_password_rejected (salt : Nat) (u : UserState) (p : String)
    (h : p.length < 6) :
    u.set_password_hash salt p =
      .error (.valueError "Password must be at least 6 characters long") ∧
    u.set_password_state salt p = u := by
  unfold UserState.set_password_state UserState.set_password_hash
  rw [if_pos h]
  exact ⟨rfl, rfl⟩

/-- Claim C3 witness at the concrete short password "abc" on a user that
already holds a stored hash. -/
theorem short_password_rejected_witness :
    ({ sampleUser with
        _password_hash := some (generate_password_hash 0 "secret") } : UserState
      ).set_password_hash 0 "abc" =
      .error (.valueError "Password must be at least 6 characters long") ∧
    ({ sampleUser with
        _password_hash := some (generate_password_hash 0 "secret") } : UserState
      ).set_password_state 0 "abc" =
      { sampleUser with _password_hash := some (generate_password_hash 0 "secret") } :=
  short_password_rejected 0
    { sampleUser with _password_hash := some (generate_password_hash 0 "secret") }
    "abc" (by decide)

/-- Claim C6: the declared serializer rules exclude the reverse side of every
relationship an entity was reached through — serializing a `BookClub` never
expands `creator.book_clubs_created`, and serializing a `Review` expands the
`user`, `book` and `book_club` relationships themselves while excluding
`user.reviews`, `book.reviews` and `book_club.reviews`. -/
theorem serialize_rules_exclude_back_edges :
    pathExcluded BookClub.serialize_rules "creator.book_clubs_created" = true ∧
    pathExcluded Review.serialize_rules "user" = false ∧
    pathExcluded Review.serialize_rules "book" = false ∧
    pathExcluded Review.serialize_rules "book_club" = false ∧
    pathExcluded Review.serialize_rules "user.reviews" = true ∧
    pathExcluded Review.serialize_rules "book.reviews" = true ∧
    pathExcluded Review.serialize_rules "book_club.reviews" = true := by
  refine ⟨?_, ?_, ?_, ?_, ?_, ?_, ?_⟩ <;> decide

/-- Claim C7: assigning a string to `User.email` succeeds iff the string
contains the character `@`; a violating string raises an assertion failure
and the object — in particular the previously stored email — is left
unchanged. -/
theorem set_email_succeeds_iff_contains_at (u : UserState) (s : String) :
    ((∃ u', u.set_email (some s) = .ok u') ↔ s.contains '@' = true) ∧
    (u.set_email (some s) = .error .assertionError ↔ s.contains '@' = false) ∧
    u.set_email_state (some s) =
      (if s.contains '@' then { u with email := some s } else u) := by
  unfold UserState.set_email_state UserState.set_email User.validate_email
  by_cases h : s.contains '@' <;> simp [h]

/-- Claim C8: for each of the five non-empty validated fields
(`User.username`, `BookClub.name`, `Book.title`, `Book.author`,
`Genre.name`), assignment runs the validator irrespective of the current
field value and succeeds iff the assigned value is a non-null, non-empty
string; violations surface as assertion failures, so no empty value is ever
stored through these setters. -/
theorem nonempty_field_validators (u : UserState) (c : BookClubState)
    (b : BookState) (g : GenreState) (v : Option String) :
    ((∃ u', u.set_username v = .ok u') ↔ ∃ s, v = some s ∧ 0 < s.length) ∧
    ((∃ c', c.set_name v = .ok c') ↔ ∃ s, v = some s ∧ 0 < s.length) ∧
    ((∃ b', b.set_title v = .ok b') ↔ ∃ s, v = some s ∧ 0 < s.length) ∧
    ((∃ b', b.set_author v = .ok b') ↔ ∃ s, v = some s ∧ 0 < s.length) ∧
    ((∃ g', g.set_name v = .ok g') ↔ ∃ s, v = some s ∧ 0 < s.length) ∧
    (u.set_username v = .error .assertionError ↔
      ¬ ∃ s, v = some s ∧ 0 < s.length) ∧
    (c.set_name v = .error .assertionError ↔ ¬ ∃ s, v = some s ∧ 0 < s.length) ∧
    (b.set_title v = .error .assertionError ↔ ¬ ∃ s, v = some s ∧ 0 < s.length) ∧
    (b.set_author v = .error .assertionError ↔ ¬ ∃ s, v = some s ∧ 0 < s.length) ∧
    (g.set_name v = .error .assertionError ↔ ¬ ∃ s, v = some s ∧ 0 < s.length) := by
  unfold UserState.set_username BookClubState.set_name BookState.set_title
    BookState.set_author GenreState.set_name User.validate_username
    BookClub.validate_name Book.validate_title Book.validate_author
    Genre.validate_name pyNotNoneAndNonempty
  cases v with
  | none => simp
  | some s => by_cases h : 0 < s.length <;> simp [h]

/-- Claim C10: assigning `None` to `User.email` raises a `TypeError` (from
evaluating the Python expression `'@' in None`), not an assertion failure;
the assertion-failure outcome of the email validator occurs exactly for
string inputs that lack `@`. -/
theorem validate_email_none_raises_type_error :
    User.validate_email none =
      .error (.typeError "argument of type NoneType is not iterable") ∧
    ∀ v : Option String,
      (User.validate_email v = .error .assertionError ↔
        ∃ s, v = some s ∧ s.contains '@' = false) := by
  refine ⟨rfl, ?_⟩
  intro v
  unfold User.validate_email
  cases v with
  | none => simp
  | some s => by_cases h : s.contains '@' <;> simp [h]

/-- A successful `BookClub` creation stamps `created_at` with the creation
clock value. -/
theorem mk_book_club_created_at (now : Nat) (name descr : Option String)
    (cb : Nat) (bc : BookClubState)
    (h : BookClub.mk_record now name descr cb = .ok bc) : bc.created_at = now := by
  unfold BookClub.mk_record at h
  cases hv : BookClub.validate_name name with
  | error e => rw [hv] at h; simp at h
  | ok v => rw [hv] at h; simp at h; subst h; rfl

/-- A successful `CurrentReading` insert appends a row whose `started_at` is
the insertion clock value. -/
theorem insert_current_reading_started_at (now : Nat) (s : CRStore)
    (i bcid bid : Nat) (s' : CRStore)
    (h : insertCurrentReading now s i bcid bid = .ok s') :
    s'.current_readings = s.current_readings ++ [⟨i, bcid, bid, now⟩] := by
  unfold insertCurrentReading at h
  split at h
  · simp at h
  · split at h
    · simp at h
    · split at h
      · simp at h
      · simp at h; subst h; rfl

/-- A successful `Review` creation stamps both timestamps with the creation
clock value. -/
theorem mk_review_timestamps (now uid bid cid : Nat) (content : Option String)
    (rating : ℚ) (rv : ReviewState)
    (h : Review.mk_record now uid bid cid content rating = .ok rv) :
    rv.created_at = now ∧ rv.updated_at = now := by
  unfold Review.mk_record at h
  cases hv : Review.validate_rating rating with
  | error e => rw [hv] at h; simp at h
  | ok v =>
    rw [hv] at h
    by_cases hc : content = none
    · simp [hc] at h
    · simp [hc] at h; subst h; exact ⟨rfl, rfl⟩

/-- A successful rating mutation keeps `created_at` and re-stamps
`updated_at` with the mutation clock value. -/
theorem set_rating_timestamps (now : Nat) (r : ReviewState) (rating : ℚ)
    (r' : ReviewState) (h : r.set_rating now rating = .ok r') :
    r'.created_at = r.created_at ∧ r'.updated_at = now := by
  unfold ReviewState.set_rating at h
  cases hv : Review.validate_rating rating with
  | error e => rw [hv] at h; simp at h
  | ok v => rw [hv] at h; simp at h; subst h; exact ⟨rfl, rfl⟩

/-- Claim C9: successful construction stamps `BookClub.created_at`,
`CurrentReading.started_at`, and both `Review.created_at` and
`Review.updated_at` with the construction clock value; a subsequent field
mutation of a `Review` (a rating or content assignment) re-stamps
`updated_at` with the mutation clock value while `created_at` is unchanged. -/
theorem creation_and_update_timestamps
    (t t1 t2 : Nat) (name descr : Option String) (cb : Nat)
    (s : CRStore) (i bcid bid : Nat) (uid bkid clid : Nat)
    (content c' : Option String) (rating rating' : ℚ)
    (bc : BookClubState) (hbc : BookClub.mk_record t name descr cb = .ok bc)
    (s' : CRStore) (hcr : insertCurrentReading t s i bcid bid = .ok s')
    (rv : ReviewState) (hrv : Review.mk_record t uid bkid clid content rating = .ok rv)
    (rv' : ReviewState) (hrv' : rv.set_rating t1 rating' = .ok rv') :
    bc.created_at = t ∧
    (∃ row ∈ s'.current_readings, row.started_at = t) ∧
    rv.created_at = t ∧ rv.updated_at = t ∧
    rv'.created_at = rv.created_at ∧ rv'.updated_at = t1 ∧
    (rv.set_content t2 c').created_at = rv.created_at ∧
    (rv.set_content t2 c').updated_at = t2 := by
  obtain ⟨h1, h2⟩ := mk_review_timestamps t uid bkid clid content rating rv hrv
  obtain ⟨h3, h4⟩ := set_rating_timestamps t1 rv rating' rv' hrv'
  refine ⟨mk_book_club_created_at t name descr cb bc hbc, ?_, h1, h2, h3, h4, rfl, rfl⟩
  refine ⟨⟨i, bcid, bid, t⟩, ?_, rfl⟩
  rw [insert_current_reading_started_at t s i bcid bid s' hcr]
  simp

/-- Claim C9 witness: a concrete club, current reading and review created at
clock 5, with the review rating mutated at clock 6 and its content mutated
at clock 7. -/
theorem creation_and_update_timestamps_witness :
    (⟨some "Mystery Lovers", none, 1, 5⟩ : BookClubState).created_at = 5 ∧
    (∃ row ∈ ((⟨[1], [1, 2], [⟨1, 1, 1, 5⟩]⟩ : CRStore)).current_readings,
      row.started_at = 5) ∧
    (⟨1, 1, 1, some "Great", 5, 5, 5⟩ : ReviewState).created_at = 5 ∧
    (⟨1, 1, 1, some "Great", 5, 5, 5⟩ : ReviewState).updated_at = 5 ∧
    (⟨1, 1, 1, some "Great", 4, 5, 6⟩ : ReviewState).created_at =
      (⟨1, 1, 1, some "Great", 5, 5, 5⟩ : ReviewState).created_at ∧
    (⟨1, 1, 1, some "Great", 4, 5, 6⟩ : ReviewState).updated_at = 6 ∧
    ((⟨1, 1, 1, some "Great", 5, 5, 5⟩ : ReviewState).set_content 7
        (some "Still great")).created_at =
      (⟨1, 1, 1, some "Great", 5, 5, 5⟩ : ReviewState).created_at ∧
    ((⟨1, 1, 1, some "Great", 5, 5, 5⟩ : ReviewState).set_content 7
        (some "Still great")).updated_at = 7 :=
  creation_and_update_timestamps 5 6 7 (some "Mystery Lovers") none 1
    sampleStore 1 1 1 1 1 1 (some "Great") (some "Still great") 5 4
    ⟨some "Mystery Lovers", none, 1, 5⟩ rfl
    ⟨[1], [1, 2], [⟨1, 1, 1, 5⟩]⟩ rfl
    ⟨1, 1, 1, some "Great", 5, 5, 5⟩
    (by unfold Review.mk_record Review.validate_rating
        rw [if_pos (by norm_num : (1 : ℚ) ≤ 5 ∧ (5 : ℚ) ≤ 5)]
        rfl)
    ⟨1, 1, 1, some "Great", 4, 5, 6⟩
    (by unfold ReviewState.set_rating Review.validate_rating
        rw [if_pos (by norm_num : (1 : ℚ) ≤ 4 ∧ (4 : ℚ) ≤ 5)])
